/-
  Verification of the email-classifier pipeline.

  Shallow embedding of the Python sources:
    api/services/preprocessing_service.py
    api/services/feature_extraction_service.py
    api/services/classification_service.py
    api/services/response_service.py
    api/services/email_service.py
    api/infrastructure/repositories/model_repository.py
    api/core/domain/models.py, api/core/domain/exceptions.py

  External capabilities (NLTK tokenizer/lemmatizer/stemmer and stop-word
  lists, the transformers sentiment scorer, the OpenAI responder, the model
  loader) are modelled as injected parameters, as the code injects them.
  Machine floats are modelled as exact rationals; Python round(x, 1)
  (banker's rounding) is modelled exactly on rationals.  Wall-clock fields
  (processing_time, timestamp) are outside the embedding.
-/
import Mathlib

namespace EmailClassifier

/-! ## Data model (api/core/domain/models.py) -/

/-- EmailCategory enum. -/
inductive EmailCategory where
  | productive
  | unproductive
deriving DecidableEq, Repr

/-- ProcessedEmail value object. -/
structure ProcessedEmail where
  original_text : String
  tokens : List String
  filtered_tokens : List String
  lemmatized_tokens : List String
  stemmed_tokens : List String
  processed_text : String
  word_count : Nat
deriving DecidableEq, Repr

/-- EmailFeatures value object.  Scores are list lengths, hence Nat. -/
structure EmailFeatures where
  text_length : Nat
  word_count : Nat
  avg_word_length : ℚ
  productive_keywords : List String
  unproductive_keywords : List String
  productive_score : Nat
  unproductive_score : Nat
  has_urls : Bool
  has_numbers : Bool
  exclamation_count : Nat
  question_count : Nat
deriving DecidableEq, Repr

/-- ClassificationResult value object; confidence is a percentage. -/
structure ClassificationResult where
  category : EmailCategory
  confidence : ℚ
  method_used : String
  features_used : List String
deriving DecidableEq, Repr

/-- EmailAnalysis value object (wall-clock fields omitted). -/
structure EmailAnalysis where
  category : EmailCategory
  confidence : ℚ
  response : String
  word_count : Nat
  keywords_found : List String
  sentiment_score : ℚ
deriving DecidableEq, Repr

/-! ## Error taxonomy (api/core/domain/exceptions.py).
    `ErrKind` is the most-derived exception class a caller can catch. -/

inductive ErrKind where
  | emailClassificationError
  | invalidEmailContent
  | emailTooShort
  | emailTooLong
  | modelNotAvailable
  | classificationFailed
  | responseGeneration
deriving DecidableEq, Repr

/-- Validation failures raised by validate_email_content, with the data
    their Python messages carry. -/
inductive ValErr where
  | invalidContent
  | tooShort (minLen provided : Nat)
  | tooLong (maxLen provided : Nat)
deriving DecidableEq, Repr

/-- The Python exception message of a validation error. -/
def ValErr.message : ValErr → String
  | .invalidContent => "Email content cannot be empty"
  | .tooShort mn n =>
      "Email content too short. Minimum length: " ++ toString mn ++
        ", provided: " ++ toString n
  | .tooLong mx n =>
      "Email content too long. Maximum length: " ++ toString mx ++
        ", provided: " ++ toString n

/-- The exception class of a validation error. -/
def ValErr.kind : ValErr → ErrKind
  | .invalidContent => .invalidEmailContent
  | .tooShort _ _ => .emailTooShort
  | .tooLong _ _ => .emailTooLong

/-! ## Configuration (api/core/config.py, config_repository.py) -/

structure Config where
  minLength : Nat
  maxLength : Nat
  productiveKeywords : List String
  unproductiveKeywords : List String

/-- The keyword lists and default bounds of AppConfig. -/
def defaultConfig : Config where
  minLength := 10
  maxLength := 10000
  productiveKeywords :=
    ["projeto", "reunião", "prazo", "entrega", "análise", "relatório",
     "proposta", "cliente", "desenvolvimento", "implementação", "solução",
     "estratégia", "planejamento", "resultado", "objetivo", "meta",
     "project", "meeting", "deadline", "delivery", "analysis", "report",
     "proposal", "client", "development", "implementation", "solution",
     "strategy", "planning", "result", "objective", "goal"]
  unproductiveKeywords :=
    ["spam", "promoção", "desconto", "oferta", "grátis", "urgente",
     "clique", "compre", "newsletter", "propaganda", "publicidade",
     "promotion", "discount", "offer", "free", "urgent", "click",
     "buy", "advertisement", "marketing", "sale"]

/-! ## Python round(x, 1): round half to even at one decimal. -/

/-- Round a rational half-to-even to an integer, as Python round does. -/
def pyRoundInt (y : ℚ) : ℤ :=
  let fl := ⌊y⌋
  let frac := y - fl
  if frac < 1/2 then fl
  else if 1/2 < frac then fl + 1
  else if fl % 2 = 0 then fl else fl + 1

/-- Python round(x, 1). -/
def round1 (x : ℚ) : ℚ := (pyRoundInt (10 * x) : ℚ) / 10

/-! ## Python string primitives, modelled structurally over the character
    list so that every definition is executable. -/

/-- Python str.strip(): drop leading and trailing whitespace. -/
def pyStrip (s : String) : String :=
  String.mk
    (((s.data.dropWhile Char.isWhitespace).reverse.dropWhile
        Char.isWhitespace).reverse)

/-- Python str.lower(). -/
def pyLower (s : String) : String := String.mk (s.data.map Char.toLower)

/-- Python s[:n]: the first n characters. -/
def pyTake (s : String) (n : Nat) : String := String.mk (s.data.take n)

/-- Helper of pySplit: accumulate the current word (reversed) while
    scanning. -/
def pySplitAux : List Char → List Char → List String
  | [], acc => if acc.isEmpty then [] else [String.mk acc.reverse]
  | c :: rest, acc =>
      if c.isWhitespace then
        if acc.isEmpty then pySplitAux rest []
        else String.mk acc.reverse :: pySplitAux rest []
      else pySplitAux rest (c :: acc)

/-- Python str.split() with no argument: split on whitespace runs,
    producing no empty pieces. -/
def pySplit (s : String) : List String := pySplitAux s.data []

/-- Whether pat occurs at the head of the list. -/
def beginsWith : List Char → List Char → Bool
  | [], _ => true
  | _ :: _, [] => false
  | p :: ps, c :: cs => p == c && beginsWith ps cs

/-- Whether pat occurs anywhere in the list. -/
def subOccurs (pat : List Char) : List Char → Bool
  | [] => pat.isEmpty
  | c :: rest => beginsWith pat (c :: rest) || subOccurs pat rest

/-- Python substring containment: sub in s. -/
def strContainsSub (s sub : String) : Bool := subOccurs sub.data s.data

/-- Python str.replace on character lists, non-overlapping, left to
    right. -/
def replaceAll (pat repl : List Char) : List Char → List Char
  | [] => []
  | c :: rest =>
      if beginsWith pat (c :: rest) && !pat.isEmpty then
        repl ++ replaceAll pat repl (List.drop pat.length (c :: rest))
      else c :: replaceAll pat repl rest
termination_by l => l.length
decreasing_by
  · rename_i h
    have hne : pat.isEmpty = false := by
      rcases Bool.and_eq_true .. |>.mp h with ⟨_, hji⟩
      simpa using hji
    have hpos : 0 < pat.length := by
      cases pat with
      | nil => simp at hne
      | cons a l => simp
    simp only [List.length_drop, List.length_cons]
    omega
  · simp

/-- Python str.replace. -/
def pyReplace (s pat repl : String) : String :=
  String.mk (replaceAll pat.data repl.data s.data)

/-- Python ' '.join(tokens). -/
def joinSpace : List String → String
  | [] => ""
  | [t] => t
  | t :: rest => t ++ " " ++ joinSpace rest

/-! ## External capabilities injected into the preprocessing stage:
    the NLTK word tokenizer, lemmatizer, stemmer (each may raise, hence
    Option) and the combined Portuguese+English stop-word set. -/

structure Env where
  tok : String → Option (List String)
  lemmatize : String → Option String
  stem : String → Option String
  stopWords : List String

/-! ## Preprocessing (api/services/preprocessing_service.py) -/

/-- validate_email_content: InvalidEmailContentError on empty or
    whitespace-only text, then EmailTooShortError / EmailTooLongError
    against the trimmed length. -/
def validate_email_content (cfg : Config) (text : String) : Except ValErr Unit :=
  if text = "" || pyStrip text = "" then .error .invalidContent
  else
    let textLength := (pyStrip text).length
    if textLength < cfg.minLength then .error (.tooShort cfg.minLength textLength)
    else if cfg.maxLength < textLength then .error (.tooLong cfg.maxLength textLength)
    else .ok ()

/-- Collapse consecutive spaces to one, part of re.sub of whitespace runs. -/
def dedupSpaces : List Char → List Char
  | [] => []
  | [c] => [c]
  | a :: b :: rest =>
      if a == ' ' && b == ' ' then dedupSpaces (b :: rest)
      else a :: dedupSpaces (b :: rest)

/-- Membership in the character class kept by the second re.sub:
    word characters (alphanumeric or underscore) or U+00C0..U+00FF. -/
def wordChar (c : Char) : Bool :=
  c.isAlphanum || c == '_' || (0xC0 ≤ c.toNat && c.toNat ≤ 0xFF)

/-- The _clean_text steps: collapse whitespace runs to a single space,
    replace characters outside the kept class with a space, and strip. -/
def clean_text (text : String) : String :=
  let ws := text.data.map (fun c => if c.isWhitespace then ' ' else c)
  let collapsed := dedupSpaces ws
  let kept := collapsed.map (fun c => if wordChar c || c == ' ' then c else ' ')
  pyStrip (String.mk kept)

/-- The _tokenize_text step: word_tokenize on the lowercased text, falling
    back to a plain split when the tokenizer raises. -/
def tokenize_text (env : Env) (text : String) : List String :=
  match env.tok (pyLower text) with
  | some ts => ts
  | none => pySplit (pyLower text)

/-- The _filter_tokens step: keep tokens that are not stop words and have
    length greater than 2. -/
def filter_tokens (env : Env) (tokens : List String) : List String :=
  tokens.filter (fun t => decide (t ∉ env.stopWords ∧ 2 < t.length))

/-- The _lemmatize_tokens step: lemmatize every token; if the lemmatizer
    raises, return the tokens unchanged. -/
def lemmatize_tokens (env : Env) (tokens : List String) : List String :=
  match tokens.mapM env.lemmatize with
  | some r => r
  | none => tokens

/-- The _stem_tokens step: stem every token; if the stemmer raises,
    return the tokens unchanged. -/
def stem_tokens (env : Env) (tokens : List String) : List String :=
  match tokens.mapM env.stem with
  | some r => r
  | none => tokens

/-- preprocess_text: validate, clean, tokenize, filter, lemmatize, stem,
    join lemmatized tokens; word_count is the pre-filter token count. -/
def preprocess_text (cfg : Config) (env : Env) (text : String) :
    Except ValErr ProcessedEmail :=
  match validate_email_content cfg text with
  | .error e => .error e
  | .ok _ =>
      let cleaned := clean_text text
      let tokens := tokenize_text env cleaned
      let filtered := filter_tokens env tokens
      let lemmatized := lemmatize_tokens env filtered
      let stemmed := stem_tokens env lemmatized
      let processed := joinSpace lemmatized
      .ok ⟨text, tokens, filtered, lemmatized, stemmed, processed, tokens.length⟩

/-! ## Feature extraction (api/services/feature_extraction_service.py) -/

/-- _find_keyword_matches: keywords whose lowercase form occurs in the
    lowercased text, preserving configured casing and order. -/
def find_keyword_matches (text : String) (keywords : List String) : List String :=
  keywords.filter (fun kw => strContainsSub (pyLower text) (pyLower kw))

/-- Match of the regex http[s]?://\S+ starting at the head of the list,
    given the part after the literal http. -/
def urlTail : List Char → Bool
  | 's' :: ':' :: '/' :: '/' :: c :: _ => !c.isWhitespace
  | ':' :: '/' :: '/' :: c :: _ => !c.isWhitespace
  | _ => false

/-- Match of the URL regex anchored at the head of the list. -/
def urlHere : List Char → Bool
  | 'h' :: 't' :: 't' :: 'p' :: rest => urlTail rest
  | _ => false

/-- Search for a URL match anywhere in the list. -/
def hasUrlChars : List Char → Bool
  | [] => false
  | c :: rest => urlHere (c :: rest) || hasUrlChars rest

/-- re.findall http[s]?://\S+ on the raw text, as a presence check. -/
def has_urls_raw (s : String) : Bool := hasUrlChars s.data

/-- _calculate_avg_word_length: mean token length, 0 for no tokens. -/
def avg_word_length (tokens : List String) : ℚ :=
  if tokens.isEmpty then 0
  else ((tokens.map String.length).sum : ℚ) / (tokens.length : ℚ)

/-- extract_features: keyword matches against processed_text, scores as
    match-list lengths, pattern features against the raw original text. -/
def extract_features (cfg : Config) (pe : ProcessedEmail) : EmailFeatures :=
  let productiveMatches := find_keyword_matches pe.processed_text cfg.productiveKeywords
  let unproductiveMatches := find_keyword_matches pe.processed_text cfg.unproductiveKeywords
  ⟨pe.processed_text.length,
   pe.word_count,
   avg_word_length pe.filtered_tokens,
   productiveMatches,
   unproductiveMatches,
   productiveMatches.length,
   unproductiveMatches.length,
   has_urls_raw pe.original_text,
   pe.original_text.data.any Char.isDigit,
   pe.original_text.data.count '!',
   pe.original_text.data.count '?'⟩

/-! ## Classification (api/services/classification_service.py) -/

/-- The injected sentiment scorer: text to (label, confidence), may raise. -/
abbrev Scorer : Type := String → Except Unit (String × ℚ)

/-- One nudge of _adjust_confidence_with_features: +d clamped at 0.99 when
    the category is already Unproductive, else -d clamped at 0.3. -/
def nudge (c d : ℚ) (category : EmailCategory) : ℚ :=
  if category = .unproductive then min (c + d) (99/100)
  else max (c - d) (3/10)

/-- _adjust_confidence_with_features: URL+exclamation nudge by 0.1 and
    short-email nudge by 0.05, clamped to the range 0.3 to 0.99. -/
def adjust_confidence_with_features (base_confidence : ℚ) (f : EmailFeatures)
    (category : EmailCategory) : ℚ :=
  let c1 :=
    if f.has_urls ∧ 2 < f.exclamation_count then nudge base_confidence (1/10) category
    else base_confidence
  if f.word_count < 20 then nudge c1 (1/20) category
  else c1

/-- The label blending step of _combine_ml_and_rules, before the feature
    adjustment. -/
def blend_ml_label (ml_label : String) (ml_confidence : ℚ) (f : EmailFeatures) :
    EmailCategory × ℚ :=
  let keyword_score : ℤ := (f.productive_score : ℤ) - (f.unproductive_score : ℤ)
  if ml_label = "POSITIVE" then
    if 0 ≤ keyword_score then (.productive, ml_confidence)
    else (.unproductive, ml_confidence * (8/10))
  else
    if 2 < keyword_score then (.productive, 7/10)
    else (.unproductive, ml_confidence)

/-- _combine_ml_and_rules: blend the label with the keyword score, then
    adjust the confidence with the extra features. -/
def combine_ml_and_rules (ml_label : String) (ml_confidence : ℚ)
    (f : EmailFeatures) : EmailCategory × ℚ :=
  let p := blend_ml_label ml_label ml_confidence f
  (p.1, adjust_confidence_with_features p.2 f p.1)

/-- The score and max_score accumulation of _rule_based_classification:
    keyword scoring, text length scoring, URL presence, excessive
    punctuation, in source order (score += / -=; max_score += only). -/
def rule_score_max (f : EmailFeatures) : ℤ × ℕ :=
  let s1 : ℤ := if 0 < f.productive_score then (f.productive_score : ℤ) * 3 else 0
  let m1 : ℕ := if 0 < f.productive_score then f.productive_score * 3 else 0
  let s2 : ℤ := if 0 < f.unproductive_score then s1 - (f.unproductive_score : ℤ) * 3 else s1
  let m2 : ℕ := if 0 < f.unproductive_score then m1 + f.unproductive_score * 3 else m1
  let s3 : ℤ := if 50 < f.word_count ∧ f.word_count < 500 then s2 + 2
                else if f.word_count < 30 then s2 - 1 else s2
  let m3 : ℕ := if 50 < f.word_count ∧ f.word_count < 500 then m2 + 2
                else if f.word_count < 30 then m2 + 1 else m2
  let s4 : ℤ := if f.has_urls then s3 - 1 else s3
  let m4 : ℕ := if f.has_urls then m3 + 1 else m3
  let s5 : ℤ := if 3 < f.exclamation_count then s4 - 2 else s4
  let m5 : ℕ := if 3 < f.exclamation_count then m4 + 2 else m4
  (s5, m5)

/-- The features_used tags of _rule_based_classification, appended in the
    order the source appends them. -/
def rule_features_used (f : EmailFeatures) : List String :=
  (if 0 < f.productive_score then ["productive_keywords"] else []) ++
  (if 0 < f.unproductive_score then ["unproductive_keywords"] else []) ++
  (if 50 < f.word_count ∧ f.word_count < 500 then ["optimal_length"]
   else if f.word_count < 30 then ["short_length"] else []) ++
  (if f.has_urls then ["has_urls"] else []) ++
  (if 3 < f.exclamation_count then ["excessive_exclamation"] else [])

/-- The confidence formula min(0.5 + ratio * 0.4, 0.95). -/
def ruleConfExpr (x : ℚ) : ℚ := min (1/2 + x * (2/5)) (19/20)

/-- _rule_based_classification: accumulate score and max_score, then derive
    the category and confidence; the ratio divides by max_score + 1. -/
def rule_based_classification (f : EmailFeatures) : ClassificationResult :=
  let sm := rule_score_max f
  if 0 < sm.1 then
    ⟨.productive,
     round1 (ruleConfExpr ((sm.1 : ℚ) / ((sm.2 : ℚ) + 1)) * 100),
     "rule_based", rule_features_used f⟩
  else
    ⟨.unproductive,
     round1 (ruleConfExpr ((|sm.1| : ℚ) / ((sm.2 : ℚ) + 1)) * 100),
     "rule_based", rule_features_used f⟩

/-- _ml_classification: score the first 512 characters of processed_text;
    on success combine with the rules, on any scorer error fall back to
    the rule-based classification. -/
def ml_classification (scorer : Scorer) (pe : ProcessedEmail)
    (f : EmailFeatures) : ClassificationResult :=
  match scorer (pyTake pe.processed_text 512) with
  | .ok (label, conf) =>
      let p := combine_ml_and_rules label conf f
      ⟨p.1, round1 (p.2 * 100), "ml_with_rules",
       ["ml_sentiment", "keywords", "text_patterns"]⟩
  | .error _ => rule_based_classification f

/-- classify_email: use the ML path when a classifier is loaded and the
    processed text is longer than the configured minimum, otherwise the
    rule-based path. -/
def classify_email (cfg : Config) (scorer : Option Scorer)
    (pe : ProcessedEmail) (f : EmailFeatures) : ClassificationResult :=
  match scorer with
  | some s =>
      if cfg.minLength < pe.processed_text.length then ml_classification s pe f
      else rule_based_classification f
  | none => rule_based_classification f

/-! ## Response generation (api/services/response_service.py) -/

def prodTemplate0 : String :=
  "Prezado(a),\n\nAgradeço pelo seu email. Li atentamente os pontos apresentados e considero muito relevantes para nosso contexto atual.\n\n\x7bcontext\x7d\n\nSugiro agendarmos uma reunião para discutirmos os próximos passos e alinharmos as expectativas. \nFico no aguardo de sua disponibilidade.\n\nAtenciosamente"

def prodTemplate1 : String :=
  "Olá,\n\nObrigado por compartilhar estas informações importantes. \n\n\x7bcontext\x7d\n\nVou analisar os detalhes e retornarei com um feedback mais estruturado até o final do dia.\nCaso necessite de algo urgente, por favor me avise.\n\nCordialmente"

def prodTemplate2 : String :=
  "Prezado(a),\n\nRecebi seu email e agradeço pelo contato. Os pontos mencionados são de grande interesse.\n\n\x7bcontext\x7d\n\nGostaria de agendar uma conversa para discutirmos melhor as possibilidades de colaboração.\nQuando seria um bom momento para você?\n\nAtenciosamente"

def unprodTemplate0 : String :=
  "Olá,\n\nAgradeço pelo contato. No momento, não tenho interesse/disponibilidade para esta proposta.\n\nObrigado pela compreensão.\n\nAtenciosamente"

def unprodTemplate1 : String :=
  "Prezado(a),\n\nRecebi sua mensagem. Infelizmente, não se adequa às nossas necessidades atuais.\n\nAgradeço o contato e desejo sucesso em seus projetos.\n\nCordialmente"

def unprodTemplate2 : String :=
  "Olá,\n\nObrigado pelo email. Atualmente não estou buscando este tipo de oportunidade.\n\nDesejo-lhe muito sucesso.\n\nAtenciosamente"

/-- _generate_context_for_productive: phrase built from up to the first
    three productive keywords. -/
def generate_context_for_productive (productive_keywords : List String) : String :=
  if productive_keywords.isEmpty then
    "Acredito que podemos trabalhar juntos para alcançar os objetivos mencionados."
  else
    match productive_keywords.take 3 with
    | [k] => "Em relação ao ponto sobre " ++ k ++
        ", acredito que podemos desenvolver uma abordagem eficaz."
    | [k1, k2] => "Em relação aos pontos sobre " ++ k1 ++ " e " ++ k2 ++
        ", vejo grande potencial para colaboração."
    | ks => "Em relação aos pontos sobre " ++ String.intercalate ", " ks.dropLast ++
        " e " ++ (ks.getLast?.getD "") ++
        ", acredito que podemos desenvolver uma abordagem eficaz."

/-- _select_productive_template. -/
def select_productive_template (f : EmailFeatures) : ℕ :=
  if 100 < f.word_count ∧ 2 < f.productive_score then 0
  else if 50 < f.word_count then 1
  else 2

/-- _select_unproductive_template. -/
def select_unproductive_template (f : EmailFeatures) : ℕ :=
  if f.has_urls ∨ 2 < f.exclamation_count then 1
  else if 2 < f.unproductive_score then 0
  else 2

/-- _generate_productive_response: selected template with the context
    substituted for the format placeholder. -/
def generate_productive_response (f : EmailFeatures) : String :=
  let context := generate_context_for_productive f.productive_keywords
  let t := [prodTemplate0, prodTemplate1, prodTemplate2].getD
    (select_productive_template f) ""
  pyReplace t "\x7bcontext\x7d" context

/-- _generate_unproductive_response. -/
def generate_unproductive_response (f : EmailFeatures) : String :=
  [unprodTemplate0, unprodTemplate1, unprodTemplate2].getD
    (select_unproductive_template f) ""

/-- _generate_template_response. -/
def generate_template_response (category : EmailCategory) (f : EmailFeatures) : String :=
  if category = .productive then generate_productive_response f
  else generate_unproductive_response f

/-- The injected generative responder: availability flag and a respond
    call that may raise. -/
structure RespService where
  available : Bool
  respond : String → EmailCategory → Except Unit String

/-- generate_response: try the external AI service when present and
    available; any error or empty output falls through to the template
    path, which is total. -/
def generate_response (svc : Option RespService) (original_text : String)
    (classification : ClassificationResult) (f : EmailFeatures) : String :=
  match svc with
  | some s =>
      if s.available then
        match s.respond original_text classification.category with
        | .ok r =>
            if r.isEmpty then generate_template_response classification.category f
            else r
        | .error _ => generate_template_response classification.category f
      else generate_template_response classification.category f
  | none => generate_template_response classification.category f

/-! ## Orchestrator (api/services/email_service.py).
    process_email catches every exception of the pipeline and re-raises a
    plain EmailClassificationError whose message wraps the cause's message,
    so the caller-visible kind of any failure is the base class. -/

def process_email (cfg : Config) (env : Env) (scorer : Option Scorer)
    (svc : Option RespService) (email_content : String) :
    Except (ErrKind × String) EmailAnalysis :=
  match preprocess_text cfg env email_content with
  | .error e =>
      .error (.emailClassificationError, "Email processing failed: " ++ e.message)
  | .ok pe =>
      let features := extract_features cfg pe
      let classification := classify_email cfg scorer pe features
      let response := generate_response svc email_content classification features
      .ok ⟨classification.category,
           classification.confidence,
           response,
           pe.word_count,
           features.productive_keywords ++ features.unproductive_keywords,
           classification.confidence / 100⟩

/-! ## Model repository (api/infrastructure/repositories/model_repository.py) -/

structure ModelInfoEntry where
  name : String
  modelType : String
  device : Int
  loaded : Bool
deriving DecidableEq, Repr

/-- The repository's mutable state: the model cache and the info records,
    newest first (dict update modelled by shadowing cons). -/
structure ModelRepoState (Model : Type) where
  models : List (String × Model)
  modelInfo : List (String × ModelInfoEntry)

/-- load_classification_model: return the cached model when present,
    otherwise run the external loader, cache the result, and record the
    info entry; a loader failure raises ModelNotAvailableError. -/
def load_classification_model {Model : Type}
    (loadFn : String → Except String Model) (device : Int)
    (st : ModelRepoState Model) (model_name : String) :
    Except (ErrKind × String) (Model × ModelRepoState Model) :=
  match st.models.lookup model_name with
  | some m => .ok (m, st)
  | none =>
      match loadFn model_name with
      | .ok m =>
          .ok (m, ⟨(model_name, m) :: st.models,
                   (model_name, ⟨model_name, "sentiment-analysis", device, true⟩)
                     :: st.modelInfo⟩)
      | .error msg =>
          .error (.modelNotAvailable,
                  "Cannot load model " ++ model_name ++ ": " ++ msg)

/-! ## Sample inputs for witnesses -/

/-- An environment whose tokenizer always raises (exercising the plain
    split fallback), with identity lemmatizer and stemmer and no stop
    words. -/
def defaultEnv : Env := ⟨fun _ => none, fun t => some t, fun t => some t, []⟩

/-- Features of the C1 rule-based scenario: 3 productive keyword matches,
    no unproductive ones, 60 words, no URLs, no exclamation marks. -/
def c1Features : EmailFeatures :=
  ⟨0, 60, 0, ["projeto", "reunião", "prazo"], [], 3, 0, false, false, 0, 0⟩

/-- Features of the C4 ML-blend scenario: productiveScore 4,
    unproductiveScore 0, 25 words, no URLs, no exclamation marks. -/
def c4Features : EmailFeatures :=
  ⟨0, 25, 0, ["projeto", "prazo", "meta", "goal"], [], 4, 0, false, false, 0, 0⟩

/-- A concrete preprocessed email used by witnesses. -/
def samplePE : ProcessedEmail :=
  ⟨"projeto reunião prazo", ["projeto", "reunião", "prazo"],
   ["projeto", "reunião", "prazo"], ["projeto", "reunião", "prazo"],
   ["projeto", "reunião", "prazo"], "projeto reunião prazo", 3⟩

/-- A concrete unproductive classification used by witnesses. -/
def sampleUnproductiveCls : ClassificationResult :=
  ⟨.unproductive, 50, "rule_based", []⟩

/-- A repository state holding one cached model (the model type is Nat in
    witnesses). -/
def mrState1 : ModelRepoState Nat :=
  ⟨[("distilbert", 42)],
   [("distilbert", ⟨"distilbert", "sentiment-analysis", -1, true⟩)]⟩

/-- A concrete valid email text used by witnesses. -/
def sampleText : String := "projeto bom dia tudo certo"

/-! ## Shared helper lemmas -/

/-- The rule-based path always reports methodUsed = "rule_based". -/
lemma rule_based_method_used (f : EmailFeatures) :
    (rule_based_classification f).method_used = "rule_based" := by
  unfold rule_based_classification
  dsimp only
  split <;> rfl

/-- One clamped nudge keeps a confidence inside the unit interval. -/
lemma nudge_mem (d : ℚ) (cat : EmailCategory) {c : ℚ}
    (h0 : 0 ≤ c) (h1 : c ≤ 1) (hd : 0 ≤ d) :
    0 ≤ nudge c d cat ∧ nudge c d cat ≤ 1 := by
  unfold nudge
  split_ifs
  · exact ⟨le_min (by linarith) (by norm_num),
           le_trans (min_le_right _ _) (by norm_num)⟩
  · exact ⟨le_trans (by norm_num) (le_max_right _ _),
           max_le (by linarith) (by norm_num)⟩

/-- The feature adjustment keeps a confidence inside the unit interval. -/
lemma adjust_mem (f : EmailFeatures) (cat : EmailCategory) {c : ℚ}
    (h0 : 0 ≤ c) (h1 : c ≤ 1) :
    0 ≤ adjust_confidence_with_features c f cat ∧
    adjust_confidence_with_features c f cat ≤ 1 := by
  unfold adjust_confidence_with_features
  dsimp only
  have hd10 : (0:ℚ) ≤ 1/10 := by norm_num
  have hd20 : (0:ℚ) ≤ 1/20 := by norm_num
  split_ifs with hwc htrig htrig
  · obtain ⟨ha, hb⟩ := nudge_mem (1/10) cat h0 h1 hd10
    exact nudge_mem (1/20) cat ha hb hd20
  · exact nudge_mem (1/20) cat h0 h1 hd20
  · exact nudge_mem (1/10) cat h0 h1 hd10
  · exact ⟨h0, h1⟩

/-- The label blend keeps a confidence inside the unit interval. -/
lemma blend_mem (label : String) (f : EmailFeatures) {c : ℚ}
    (h0 : 0 ≤ c) (h1 : c ≤ 1) :
    0 ≤ (blend_ml_label label c f).2 ∧ (blend_ml_label label c f).2 ≤ 1 := by
  unfold blend_ml_label
  dsimp only
  split_ifs <;> simp only
  · exact ⟨h0, h1⟩
  · constructor
    · positivity
    · nlinarith
  · norm_num
  · exact ⟨h0, h1⟩

/-- Blend followed by adjustment stays inside the unit interval. -/
lemma combine_mem (label : String) (f : EmailFeatures) {c : ℚ}
    (h0 : 0 ≤ c) (h1 : c ≤ 1) :
    0 ≤ (combine_ml_and_rules label c f).2 ∧
    (combine_ml_and_rules label c f).2 ≤ 1 := by
  unfold combine_ml_and_rules
  dsimp only
  obtain ⟨ha, hb⟩ := blend_mem label f h0 h1
  exact adjust_mem f _ ha hb

/-- Half-even rounding stays inside the range 0 to 1000. -/
lemma pyRoundInt_mem {y : ℚ} (h0 : 0 ≤ y) (h1 : y ≤ 1000) :
    0 ≤ pyRoundInt y ∧ pyRoundInt y ≤ 1000 := by
  unfold pyRoundInt
  dsimp only
  have hfl0 : (0:ℤ) ≤ ⌊y⌋ := Int.floor_nonneg.mpr h0
  have hfl1 : ⌊y⌋ ≤ 1000 := by
    have h := Int.floor_le_floor (α := ℚ) h1
    have h1000 : ⌊(1000:ℚ)⌋ = 1000 := by norm_num
    rw [h1000] at h
    exact h
  have hfly : (⌊y⌋ : ℚ) ≤ y := Int.floor_le y
  split_ifs with hc1 hc2 hc3
  · exact ⟨hfl0, hfl1⟩
  · constructor
    · omega
    · have hq : (⌊y⌋ : ℚ) < 1000 := by linarith
      have h3 : ⌊y⌋ < 1000 := by exact_mod_cast hq
      omega
  · exact ⟨hfl0, hfl1⟩
  · constructor
    · omega
    · push_neg at hc1 hc2
      have hq : (⌊y⌋ : ℚ) < 1000 := by linarith
      have h3 : ⌊y⌋ < 1000 := by exact_mod_cast hq
      omega

/-- A unit-interval confidence reports as a percentage in 0 to 100. -/
lemma round1_pct_mem {c : ℚ} (h0 : 0 ≤ c) (h1 : c ≤ 1) :
    0 ≤ round1 (c * 100) ∧ round1 (c * 100) ≤ 100 := by
  unfold round1
  obtain ⟨ha, hb⟩ := pyRoundInt_mem (y := 10 * (c * 100)) (by linarith) (by linarith)
  have ha2 : (0:ℚ) ≤ (pyRoundInt (10 * (c * 100)) : ℚ) := by exact_mod_cast ha
  have hb2 : (pyRoundInt (10 * (c * 100)) : ℚ) ≤ 1000 := by exact_mod_cast hb
  constructor
  · linarith
  · linarith

/-- The rule-based confidence formula stays inside the unit interval for a
    nonnegative ratio. -/
lemma ruleConfExpr_mem {x : ℚ} (hx : 0 ≤ x) :
    0 ≤ ruleConfExpr x ∧ ruleConfExpr x ≤ 1 := by
  unfold ruleConfExpr
  exact ⟨le_min (by linarith) (by norm_num),
         le_trans (min_le_right _ _) (by norm_num)⟩

/-- The rule-based classification reports a percentage in 0 to 100. -/
lemma rule_conf_mem (f : EmailFeatures) :
    0 ≤ (rule_based_classification f).confidence ∧
    (rule_based_classification f).confidence ≤ 100 := by
  unfold rule_based_classification
  dsimp only
  split_ifs with hpos
  · dsimp only
    have hratio : 0 ≤ ((rule_score_max f).1 : ℚ) / (((rule_score_max f).2 : ℚ) + 1) := by
      apply div_nonneg
      · exact_mod_cast le_of_lt hpos
      · positivity
    obtain ⟨ha, hb⟩ := ruleConfExpr_mem hratio
    exact round1_pct_mem ha hb
  · dsimp only
    have hratio : 0 ≤ ((|(rule_score_max f).1| : ℚ)) / (((rule_score_max f).2 : ℚ) + 1) := by
      apply div_nonneg
      · exact_mod_cast abs_nonneg _
      · positivity
    obtain ⟨ha, hb⟩ := ruleConfExpr_mem hratio
    exact round1_pct_mem ha hb

/-- classify_email reports a percentage in 0 to 100 whenever every scorer
    success carries a confidence in the unit interval. -/
lemma classify_conf_mem (cfg : Config) (scorer : Option Scorer)
    (pe : ProcessedEmail) (f : EmailFeatures)
    (hs : ∀ (s : Scorer), scorer = some s →
      ∀ t label c, s t = .ok (label, c) → 0 ≤ c ∧ c ≤ 1) :
    0 ≤ (classify_email cfg scorer pe f).confidence ∧
    (classify_email cfg scorer pe f).confidence ≤ 100 := by
  unfold classify_email
  cases scorer with
  | none => exact rule_conf_mem f
  | some s =>
      dsimp only
      split_ifs with hlen
      · unfold ml_classification
        cases hr : s (pyTake pe.processed_text 512) with
        | ok lc =>
            obtain ⟨label, c⟩ := lc
            dsimp only
            obtain ⟨hc0, hc1⟩ := hs s rfl _ label c hr
            obtain ⟨ha, hb⟩ := combine_mem label f hc0 hc1
            exact round1_pct_mem ha hb
        | error e => exact rule_conf_mem f
      · exact rule_conf_mem f

/-- Validation passes when the stripped length is within positive
    configured bounds. -/
lemma validate_ok_of_bounds (cfg : Config) (text : String)
    (hmin : 1 ≤ cfg.minLength)
    (hlo : cfg.minLength ≤ (pyStrip text).length)
    (hhi : (pyStrip text).length ≤ cfg.maxLength) :
    validate_email_content cfg text = .ok () := by
  unfold validate_email_content
  have hne : pyStrip text ≠ "" := by
    intro hq
    rw [hq] at hlo
    have h0 : ("" : String).length = 0 := rfl
    omega
  have hte : text ≠ "" := fun heq => hne (by rw [heq]; rfl)
  have hb : (text = "" || pyStrip text = "") = false := by simp [hne, hte]
  rw [hb]
  simp only [Bool.false_eq_true, if_false]
  rw [if_neg (by omega), if_neg (by omega)]

/-- A successful preprocessing result has word_count equal to its token
    count and filtered_tokens produced by _filter_tokens. -/
lemma preprocess_ok_shape (cfg : Config) (env : Env) (text : String)
    (pe : ProcessedEmail) (h : preprocess_text cfg env text = .ok pe) :
    pe.word_count = pe.tokens.length ∧
    pe.filtered_tokens = filter_tokens env pe.tokens := by
  unfold preprocess_text at h
  cases hv : validate_email_content cfg text with
  | error e =>
      rw [hv] at h
      exact absurd h (by simp)
  | ok u =>
      rw [hv] at h
      dsimp only at h
      injection h with h1
      rw [← h1]
      exact ⟨rfl, rfl⟩

/-! ## Claims -/

/-- C1, counterexample: with 3 productive keywords, 0 unproductive, word
    count 60, no URLs and 0 exclamations, the rule-based confidence is
    86.7 percent, not the claimed 80.0: the optimal_length branch adds 2
    to score as well, giving score = 11, maxScore = 11, and
    min(0.5 + (11/12) * 0.4, 0.95) = 13/15 which reports as 86.7. -/
theorem c1_claimed_confidence_false :
    (rule_based_classification c1Features).confidence = 867/10 ∧
    ((867 : ℚ)/10) ≠ 80 := by
  constructor
  · have hsm : rule_score_max c1Features = (11, 11) := by decide
    unfold rule_based_classification
    rw [hsm]
    norm_num [ruleConfExpr, round1, pyRoundInt, min_def]
  · norm_num

/-- C1, amended: for features with 3 matched productive keywords, 0
    unproductive keywords, word count 60, no URLs and 0 exclamation
    marks, the rule-based classifier returns category Productive with
    confidence 86.7 percent and methodUsed = "rule_based", the features
    used being the productive keywords and the optimal length. -/
theorem c1_rule_based_scenario (f : EmailFeatures)
    (hp : f.productive_score = 3) (hu : f.unproductive_score = 0)
    (hw : f.word_count = 60) (hurl : f.has_urls = false)
    (hex : f.exclamation_count = 0) :
    rule_based_classification f =
      ⟨.productive, 867/10, "rule_based",
       ["productive_keywords", "optimal_length"]⟩ := by
  have hsm : rule_score_max f = (11, 11) := by
    simp only [rule_score_max, hp, hu, hw, hurl, hex]
    norm_num
  have hfu : rule_features_used f = ["productive_keywords", "optimal_length"] := by
    simp [rule_features_used, hp, hu, hw, hurl, hex]
  unfold rule_based_classification
  rw [hsm, hfu]
  norm_num [ruleConfExpr, round1, pyRoundInt, min_def]

/-- C1, witness: the amended scenario evaluated at concrete features. -/
theorem c1_rule_based_scenario_witness :
    rule_based_classification c1Features =
      ⟨.productive, 867/10, "rule_based",
       ["productive_keywords", "optimal_length"]⟩ :=
  c1_rule_based_scenario c1Features rfl rfl rfl rfl rfl

/-- C2, counterexample: on the empty input, process_email reports the
    generic wrapped EmailClassificationError kind (the orchestrator's
    catch-all re-raise), not the distinct InvalidEmailContent kind the
    claim promises the caller. -/
theorem c2_distinct_kind_false :
    process_email defaultConfig defaultEnv none none "" =
      .error (.emailClassificationError,
        "Email processing failed: Email content cannot be empty") ∧
    ErrKind.emailClassificationError ≠ ErrKind.invalidEmailContent :=
  ⟨rfl, by decide⟩

/-- C2, amended: every validation failure terminates the pipeline before
    any stage 2-4 work (the result does not depend on the tokenizer
    environment, the scorer or the responder), but process_email
    re-raises it as the generic wrapped EmailClassificationError carrying
    the validation message, not as the distinct validation error kind. -/
theorem c2_validation_wrapped (cfg : Config) (env : Env)
    (scorer : Option Scorer) (svc : Option RespService) (text : String)
    (e : ValErr) (h : validate_email_content cfg text = .error e) :
    process_email cfg env scorer svc text =
      .error (.emailClassificationError,
        "Email processing failed: " ++ e.message) ∧
    (∀ (env' : Env) (scorer' : Option Scorer) (svc' : Option RespService),
      process_email cfg env' scorer' svc' text =
        process_email cfg env scorer svc text) := by
  have hp : ∀ (env' : Env), preprocess_text cfg env' text = .error e := by
    intro env'
    unfold preprocess_text
    rw [h]
  constructor
  · unfold process_email
    rw [hp]
  · intro env' scorer' svc'
    unfold process_email
    rw [hp, hp]

/-- C2, witness: the amended statement at the empty input, including the
    independence of the result from a concrete injected scorer. -/
theorem c2_validation_wrapped_witness :
    process_email defaultConfig defaultEnv none none "" =
      .error (.emailClassificationError,
        "Email processing failed: " ++ ValErr.invalidContent.message) ∧
    process_email defaultConfig defaultEnv (some (fun _ => .error ())) none "" =
      process_email defaultConfig defaultEnv none none "" :=
  ⟨(c2_validation_wrapped defaultConfig defaultEnv none none ""
      .invalidContent rfl).1,
   (c2_validation_wrapped defaultConfig defaultEnv none none ""
      .invalidContent rfl).2 defaultEnv (some (fun _ => .error ())) none⟩

/-- C3: with a scorer that raises on every call, classify_email returns
    exactly the rule-based classification of the same features, equal to
    the result with no scorer at all, and methodUsed is "rule_based". -/
theorem c3_scorer_error_fallback (cfg : Config) (pe : ProcessedEmail)
    (f : EmailFeatures) (s : Scorer) (hs : ∀ t, s t = .error ()) :
    classify_email cfg (some s) pe f = rule_based_classification f ∧
    classify_email cfg (some s) pe f = classify_email cfg none pe f ∧
    (classify_email cfg (some s) pe f).method_used = "rule_based" := by
  have h1 : classify_email cfg (some s) pe f = rule_based_classification f := by
    unfold classify_email ml_classification
    dsimp only
    rw [hs]
    split <;> rfl
  exact ⟨h1, by rw [h1]; rfl, by rw [h1]; exact rule_based_method_used f⟩

/-- C3, witness: a concrete always-raising scorer on concrete inputs. -/
theorem c3_scorer_error_fallback_witness :
    classify_email defaultConfig (some (fun _ => .error ())) samplePE c1Features =
      rule_based_classification c1Features ∧
    classify_email defaultConfig (some (fun _ => .error ())) samplePE c1Features =
      classify_email defaultConfig none samplePE c1Features ∧
    (classify_email defaultConfig (some (fun _ => .error ()))
        samplePE c1Features).method_used = "rule_based" :=
  c3_scorer_error_fallback defaultConfig samplePE c1Features
    (fun _ => .error ()) (fun _ => rfl)

/-- C4: with label NEGATIVE and keywordScore above 2, the blend step fixes
    the category to Productive with confidence 0.7 before adjustment; at
    scorer output (NEGATIVE, 0.9) with no URL+exclamation trigger and at
    least 20 words, the adjustment leaves 0.7 and the reported percentage
    is 70.0. -/
theorem c4_negative_override (conf : ℚ) (f : EmailFeatures)
    (hks : 2 < (f.productive_score : ℤ) - (f.unproductive_score : ℤ)) :
    blend_ml_label "NEGATIVE" conf f = (.productive, 7/10) ∧
    (¬(f.has_urls = true ∧ 2 < f.exclamation_count) → 20 ≤ f.word_count →
      combine_ml_and_rules "NEGATIVE" (9/10) f = (.productive, 7/10) ∧
      round1 ((combine_ml_and_rules "NEGATIVE" (9/10) f).2 * 100) = 70) := by
  have hblend : ∀ c : ℚ, blend_ml_label "NEGATIVE" c f = (.productive, 7/10) := by
    intro c
    unfold blend_ml_label
    dsimp only
    rw [if_neg (by decide), if_pos hks]
  refine ⟨hblend conf, fun hurl hwc => ?_⟩
  have hcomb : combine_ml_and_rules "NEGATIVE" (9/10) f = (.productive, 7/10) := by
    unfold combine_ml_and_rules
    rw [hblend]
    unfold adjust_confidence_with_features
    dsimp only
    rw [if_neg hurl, if_neg (by omega)]
  refine ⟨hcomb, ?_⟩
  rw [hcomb]
  norm_num [round1, pyRoundInt]

/-- C4, witness: the scenario at concrete features with productiveScore 4,
    unproductiveScore 0, word count 25. -/
theorem c4_negative_override_witness :
    combine_ml_and_rules "NEGATIVE" (9/10) c4Features = (.productive, 7/10) ∧
    round1 ((combine_ml_and_rules "NEGATIVE" (9/10) c4Features).2 * 100) = 70 :=
  (c4_negative_override (9/10) c4Features (by decide)).2 (by decide) (by decide)

/-- C6: validation raises InvalidContent exactly on blank input; on
    non-blank input it raises TooShort exactly when the stripped length is
    below minLength, TooLong exactly when it is above maxLength, and
    passes exactly when the stripped length is within the bounds. -/
theorem c6_validation_boundaries (cfg : Config) (text : String)
    (hcfg : cfg.minLength ≤ cfg.maxLength) :
    (pyStrip text = "" → validate_email_content cfg text = .error .invalidContent) ∧
    (pyStrip text ≠ "" →
      ((validate_email_content cfg text =
          .error (.tooShort cfg.minLength (pyStrip text).length) ↔
        (pyStrip text).length < cfg.minLength) ∧
       (validate_email_content cfg text =
          .error (.tooLong cfg.maxLength (pyStrip text).length) ↔
        cfg.maxLength < (pyStrip text).length) ∧
       (validate_email_content cfg text = .ok () ↔
        cfg.minLength ≤ (pyStrip text).length ∧
          (pyStrip text).length ≤ cfg.maxLength))) := by
  constructor
  · intro h
    unfold validate_email_content
    have hb : (text = "" || pyStrip text = "") = true := by simp [h]
    rw [if_pos hb]
  · intro h
    have he : text ≠ "" := fun heq => h (by rw [heq]; rfl)
    have hb : (text = "" || pyStrip text = "") = false := by simp [h, he]
    unfold validate_email_content
    rw [hb]
    simp only [Bool.false_eq_true, if_false]
    split_ifs with hlt hgt
    · refine ⟨by simp [hlt], ?_, ?_⟩
      · simp only [Except.error.injEq]
        constructor
        · intro hc
          cases hc
        · intro hc
          omega
      · constructor
        · intro hc
          cases hc
        · intro hc
          omega
    · refine ⟨?_, by simp [hgt], ?_⟩
      · simp only [Except.error.injEq]
        constructor
        · intro hc
          cases hc
        · intro hc
          omega
      · constructor
        · intro hc
          cases hc
        · intro hc
          omega
    · refine ⟨?_, ?_, by simp; omega⟩
      · constructor
        · intro hc
          cases hc
        · intro hc
          omega
      · constructor
        · intro hc
          cases hc
        · intro hc
          omega

/-- C6, witness: with the default bounds (10, 10000), a 5-character text
    fails with TooShort carrying the configured minimum. -/
theorem c6_validation_boundaries_witness :
    validate_email_content defaultConfig "short" =
      .error (.tooShort defaultConfig.minLength (pyStrip "short").length) :=
  ((c6_validation_boundaries defaultConfig "short" (by decide)).2
    (by decide)).1.mpr (by decide)

/-- C8: when the generative responder is available but its respond call
    raises, generate_response returns exactly the template selected by the
    deterministic rules, and for the Unproductive category that template is
    template 1 on URLs or more than 2 exclamations, else template 0 on
    unproductiveScore above 2, else template 2. -/
theorem c8_responder_error_fallback (s : RespService) (original : String)
    (cls : ClassificationResult) (f : EmailFeatures)
    (hav : s.available = true) (herr : ∀ t c, s.respond t c = .error ()) :
    generate_response (some s) original cls f =
      generate_template_response cls.category f ∧
    (cls.category = .unproductive →
      generate_response (some s) original cls f =
        if f.has_urls = true ∨ 2 < f.exclamation_count then unprodTemplate1
        else if 2 < f.unproductive_score then unprodTemplate0
        else unprodTemplate2) := by
  have h1 : generate_response (some s) original cls f =
      generate_template_response cls.category f := by
    unfold generate_response
    dsimp only
    rw [hav, herr]
    simp
  refine ⟨h1, fun hcat => ?_⟩
  rw [h1]
  unfold generate_template_response
  rw [hcat, if_neg (by decide)]
  unfold generate_unproductive_response select_unproductive_template
  split_ifs with h2 h3 <;> rfl

/-- C8, witness: a concrete available-but-raising responder with an
    unproductive classification selects the gentle rejection template. -/
theorem c8_responder_error_fallback_witness :
    generate_response (some ⟨true, fun _ _ => .error ()⟩) "hello"
        sampleUnproductiveCls c1Features =
      generate_template_response EmailCategory.unproductive c1Features ∧
    generate_response (some ⟨true, fun _ _ => .error ()⟩) "hello"
        sampleUnproductiveCls c1Features =
      (if c1Features.has_urls = true ∨ 2 < c1Features.exclamation_count
       then unprodTemplate1
       else if 2 < c1Features.unproductive_score then unprodTemplate0
       else unprodTemplate2) := by
  have h := c8_responder_error_fallback ⟨true, fun _ _ => .error ()⟩ "hello"
    sampleUnproductiveCls c1Features rfl (fun _ _ => rfl)
  exact ⟨h.1, h.2 rfl⟩

/-- C9: after one successful load, every later load with the same model
    name returns the cached model and the unchanged state, independently
    of the loader and device supplied to the later call. -/
theorem c9_load_memoized {Model : Type} (loadFn : String → Except String Model)
    (device : Int) (st : ModelRepoState Model) (name : String) (m : Model)
    (st' : ModelRepoState Model)
    (h : load_classification_model loadFn device st name = .ok (m, st')) :
    ∀ (loadFn' : String → Except String Model) (device' : Int),
      load_classification_model loadFn' device' st' name = .ok (m, st') := by
  intro loadFn' device'
  unfold load_classification_model at h ⊢
  cases hl : st.models.lookup name with
  | some m0 =>
      rw [hl] at h
      simp only [Except.ok.injEq, Prod.mk.injEq] at h
      obtain ⟨hm, hst⟩ := h
      subst hm
      rw [← hst, hl]
  | none =>
      rw [hl] at h
      cases hload : loadFn name with
      | ok m0 =>
          rw [hload] at h
          simp only [Except.ok.injEq, Prod.mk.injEq] at h
          obtain ⟨hm, hst⟩ := h
          subst hm
          rw [← hst]
          simp [List.lookup]
      | error msg =>
          rw [hload] at h
          exact absurd h (by simp)

/-- C9, witness: a second load from the cached state succeeds with the
    cached model even though the later loader always fails. -/
theorem c9_load_memoized_witness :
    load_classification_model (fun _ => .error "offline") 0 mrState1
      "distilbert" = .ok (42, mrState1) :=
  c9_load_memoized (fun _ => .ok 42) (-1) ⟨[], []⟩ "distilbert" 42 mrState1
    rfl (fun _ => .error "offline") 0

/-- C5: for every raw text whose stripped length lies within the positive
    configured bounds and every scorer whose successful confidences lie in
    the unit interval, process_email returns an EmailAnalysis whose
    confidence is in 0 to 100 and whose category is Productive or
    Unproductive. -/
theorem c5_process_bounds (cfg : Config) (env : Env) (scorer : Option Scorer)
    (svc : Option RespService) (text : String)
    (hmin : 1 ≤ cfg.minLength)
    (hlo : cfg.minLength ≤ (pyStrip text).length)
    (hhi : (pyStrip text).length ≤ cfg.maxLength)
    (hs : ∀ (s : Scorer), scorer = some s →
      ∀ t label c, s t = .ok (label, c) → 0 ≤ c ∧ c ≤ 1) :
    ∃ a, process_email cfg env scorer svc text = .ok a ∧
      0 ≤ a.confidence ∧ a.confidence ≤ 100 ∧
      (a.category = .productive ∨ a.category = .unproductive) := by
  have hval := validate_ok_of_bounds cfg text hmin hlo hhi
  obtain ⟨pe, hpe⟩ : ∃ pe, preprocess_text cfg env text = .ok pe := by
    unfold preprocess_text
    rw [hval]
    exact ⟨_, rfl⟩
  refine ⟨⟨(classify_email cfg scorer pe (extract_features cfg pe)).category,
          (classify_email cfg scorer pe (extract_features cfg pe)).confidence,
          generate_response svc text
            (classify_email cfg scorer pe (extract_features cfg pe))
            (extract_features cfg pe),
          pe.word_count,
          (extract_features cfg pe).productive_keywords ++
            (extract_features cfg pe).unproductive_keywords,
          (classify_email cfg scorer pe (extract_features cfg pe)).confidence
            / 100⟩, ?_, ?_, ?_, ?_⟩
  · unfold process_email
    rw [hpe]
  · exact (classify_conf_mem cfg scorer pe (extract_features cfg pe) hs).1
  · exact (classify_conf_mem cfg scorer pe (extract_features cfg pe) hs).2
  · cases hcat : (classify_email cfg scorer pe (extract_features cfg pe)).category with
    | productive => exact Or.inl rfl
    | unproductive => exact Or.inr rfl

/-- C5, witness: the bounds at a concrete valid text with the default
    configuration and no scorer. -/
theorem c5_process_bounds_witness :
    ∃ a, process_email defaultConfig defaultEnv none none sampleText = .ok a ∧
      0 ≤ a.confidence ∧ a.confidence ≤ 100 ∧
      (a.category = .productive ∨ a.category = .unproductive) :=
  c5_process_bounds defaultConfig defaultEnv none none sampleText (by decide)
    (by decide) (by decide) (fun s h => Option.noConfusion h)

/-- C7: every EmailAnalysis returned by process_email has keywordsFound
    equal to the productive matches concatenated with the unproductive
    matches, sentimentScore equal to confidence divided by 100, and
    wordCount equal to the pre-filter token count. -/
theorem c7_analysis_fields (cfg : Config) (env : Env) (scorer : Option Scorer)
    (svc : Option RespService) (text : String) (a : EmailAnalysis)
    (h : process_email cfg env scorer svc text = .ok a) :
    ∃ pe, preprocess_text cfg env text = .ok pe ∧
      a.keywords_found = (extract_features cfg pe).productive_keywords ++
        (extract_features cfg pe).unproductive_keywords ∧
      a.sentiment_score = a.confidence / 100 ∧
      a.word_count = pe.tokens.length := by
  unfold process_email at h
  cases hp : preprocess_text cfg env text with
  | error e =>
      rw [hp] at h
      exact absurd h (by simp)
  | ok pe =>
      rw [hp] at h
      dsimp only at h
      injection h with h1
      subst h1
      exact ⟨pe, rfl, rfl, rfl, (preprocess_ok_shape cfg env text pe hp).1⟩

/-- C7, witness: the field equations at a concrete processed text. -/
theorem c7_analysis_fields_witness :
    ∃ a, process_email defaultConfig defaultEnv none none sampleText = .ok a ∧
      ∃ pe, preprocess_text defaultConfig defaultEnv sampleText = .ok pe ∧
        a.keywords_found =
          (extract_features defaultConfig pe).productive_keywords ++
            (extract_features defaultConfig pe).unproductive_keywords ∧
        a.sentiment_score = a.confidence / 100 ∧
        a.word_count = pe.tokens.length := by
  obtain ⟨a, ha⟩ : ∃ a,
      process_email defaultConfig defaultEnv none none sampleText = .ok a :=
    ⟨_, rfl⟩
  exact ⟨a, ha, c7_analysis_fields defaultConfig defaultEnv none none
    sampleText a ha⟩

/-- C10: in every ProcessedEmail produced by preprocess_text, the filtered
    tokens form an order-preserving subsequence of the tokens, every
    filtered token is a non-stop-word of length above 2, and there are at
    most wordCount of them. -/
theorem c10_filtered_tokens_invariant (cfg : Config) (env : Env)
    (text : String) (pe : ProcessedEmail)
    (h : preprocess_text cfg env text = .ok pe) :
    pe.filtered_tokens.Sublist pe.tokens ∧
    (∀ t ∈ pe.filtered_tokens, t ∉ env.stopWords ∧ 2 < t.length) ∧
    pe.filtered_tokens.length ≤ pe.word_count := by
  obtain ⟨hwc, hft⟩ := preprocess_ok_shape cfg env text pe h
  refine ⟨?_, ?_, ?_⟩
  · rw [hft]
    exact List.filter_sublist _
  · intro t ht
    rw [hft] at ht
    unfold filter_tokens at ht
    simp only [List.mem_filter, decide_eq_true_eq] at ht
    exact ht.2
  · rw [hft, hwc]
    exact List.length_filter_le _ _

/-- C10, witness: the invariant at a concrete preprocessed text. -/
theorem c10_filtered_tokens_witness :
    ∃ pe, preprocess_text defaultConfig defaultEnv sampleText = .ok pe ∧
      (pe.filtered_tokens.Sublist pe.tokens ∧
       (∀ t ∈ pe.filtered_tokens, t ∉ defaultEnv.stopWords ∧ 2 < t.length) ∧
       pe.filtered_tokens.length ≤ pe.word_count) := by
  obtain ⟨pe, hpe⟩ : ∃ pe,
      preprocess_text defaultConfig defaultEnv sampleText = .ok pe :=
    ⟨_, rfl⟩
  exact ⟨pe, hpe, c10_filtered_tokens_invariant defaultConfig defaultEnv
    sampleText pe hpe⟩

end EmailClassifier
